import Mathlib

/-!
Verification of the VLAN-to-vNIC-template reconciler
(`src/plugins/modules/ucs_vlan_to_vnic_template.py`, function `main`).

The reconciler is embedded as a pure function over an explicit remote
state (the appliance's dn-keyed managed-object tree) that also records
the trace of connection-layer calls it issues.  The collaborator
(`query_dn`, `remove_mo`, `add_mo`, `commit`, the `VnicEtherIf`
constructor) lives outside the repository; its semantics are modelled
from the spec where the theorems need them, and each such definition is
marked `Modelled from the spec:`.
-/

namespace UcsVlanToVnicTemplate

/-- Declared VLAN attachment: one element of `vlans_list`
(suboptions `name` and `native`, the latter a `"yes"`/`"no"` string). -/
structure Vlan where
  name : String
  native : String
deriving DecidableEq, Repr

/-- Remote managed object: either the vNIC template at the template dn, or
a `VnicEtherIf` child carrying its `default_net` property. -/
inductive MO where
  | templ : MO
  | etherIf (default_net : String) : MO
deriving DecidableEq, Repr

/-- Remote appliance state: the managed-object tree flattened to an
association list keyed by distinguished name. -/
abbrev Remote := List (String × MO)

/-- Lookup of a managed object by dn, the model of `login_handle.query_dn`.
Returns the first entry with the given key, or `none`. -/
def queryDn : Remote → String → Option MO
  | [], _ => none
  | (k, v) :: rest, dn => if k = dn then some v else queryDn rest dn

/-- Module parameters acted on by the reconciliation path, plus the
framework's check-mode flag. -/
structure RInput where
  org_dn : String
  name : String
  vlans_list : List Vlan
  state : String
  check_mode : Bool
deriving DecidableEq, Repr

/-- Template dn: `org_dn + "/lan-conn-templ-" + name` (line 236). -/
def dnOf (p : RInput) : String := p.org_dn ++ "/lan-conn-templ-" ++ p.name

/-- Child dn: `dn + "/if-" + vlan.name` (lines 247 and 255). -/
def childDn (dn vname : String) : String := dn ++ "/if-" ++ vname

/-- Connection-layer call observed during a run. A `removeMo`/`addMo`
argument records the dn of the managed object handed to the call, or
`none` when the Python value is `None`. `construct` records a
`VnicEtherIf(parent_mo_or_dn, name, default_net)` instantiation. -/
inductive Event where
  | queryDn (dn : String)
  | removeMo (arg : Option String)
  | construct (parent : Option String) (name : String) (default_net : String)
  | addMo (parent : Option String)
  | commit
deriving DecidableEq, Repr

/-- Modelled from the spec: the collaborator raises on a not-found child
during deletion (spec section 7, taxonomy (b)); `remove_mo(None)` fails
inside the SDK with this stringified exception. -/
def removeMoNullMsg : String := "NoneType object has no attribute status"

/-- Modelled from the spec: `add_mo` on a `None` managed object fails
inside the SDK with this stringified exception; the module never creates
the template, so a missing template leaves `mo = None` at the add call. -/
def addMoNullMsg : String := "NoneType object has no attribute dn"

/-- Modelled from the spec: `check_prop_match(default_net=x)` compares the
remote child object's `default_net` property against `x`; a non-child
object has no such property and matches nothing. -/
def checkPropMatch : MO → String → Bool
  | MO.templ, _ => false
  | MO.etherIf d, x => d = x

/-- Deletion loop of the absent branch (lines 246-249): for each declared
VLAN, query the child dn and hand the result to `remove_mo`.  Returns the
events issued and the dns staged for removal, or, when a lookup returned
`None` and the collaborator raised, the events up to the failing call and
the exception string. -/
def deleteVlans (r : Remote) (dn : String) :
    List Vlan → Except (List Event × String) (List Event × List String)
  | [] => .ok ([], [])
  | v :: vs =>
    let cdn := childDn dn v.name
    match queryDn r cdn with
    | some _ =>
      match deleteVlans r dn vs with
      | .ok (tr, ds) =>
          .ok (Event.queryDn cdn :: Event.removeMo (some cdn) :: tr, cdn :: ds)
      | .error (tr, m) =>
          .error (Event.queryDn cdn :: Event.removeMo (some cdn) :: tr, m)
    | none => .error ([Event.queryDn cdn, Event.removeMo none], removeMoNullMsg)

/-- Property scan of the present branch (lines 254-268): walks the
declared VLANs threading the accumulator `props_match`, breaking on the
first missing child (and, in the dead inner `state == 'absent'` arm kept
for faithfulness, on a present child).  Returns the query events issued
and the final accumulator value. -/
def scanVlans (r : Remote) (dn : String) (state : String) :
    List Vlan → Bool → List Event × Bool
  | [], pm => ([], pm)
  | v :: vs, pm =>
    let cdn := childDn dn v.name
    match queryDn r cdn with
    | some mo1 =>
      if state = "absent" then ([Event.queryDn cdn], false)
      else
        let pm1 := if checkPropMatch mo1 v.native then true else pm
        let res := scanVlans r dn state vs pm1
        (Event.queryDn cdn :: res.1, res.2)
    | none =>
      if state = "absent" then
        let res := scanVlans r dn state vs pm
        (Event.queryDn cdn :: res.1, res.2)
      else ([Event.queryDn cdn], false)

/-- Rebuild construction loop (lines 273-278): one
`VnicEtherIf(parent_mo_or_dn=mo, name, default_net=native)` per declared
VLAN, recorded as construction events. -/
def constructVlans (parent : Option String) : List Vlan → List Event
  | [] => []
  | v :: vs => Event.construct parent v.name v.native :: constructVlans parent vs

/-- Modelled from the spec: committing staged `remove_mo` calls erases the
removed objects from the appliance tree. -/
def applyRemovals (r : Remote) (ds : List String) : Remote :=
  r.filter (fun kv => ¬ ds.contains kv.1)

/-- Test whether the dn `k` lies under `dn`'s VLAN-interface namespace,
i.e. whether `dn + "/if-"` begins `k`. -/
def strHasDnUnder (dn k : String) : Bool :=
  List.isPrefixOf (dn ++ "/if-").data k.data

/-- Modelled from the spec: committing `add_mo(mo, True)` performs the
idempotent upsert — the template's VLAN child set becomes exactly the
constructed children, replacing whatever children the template had. -/
def replaceChildren (r : Remote) (dn : String) (cs : Remote) : Remote :=
  r.filter (fun kv => ¬ strHasDnUnder dn kv.1) ++ cs

/-- Children produced by the rebuild, as tree entries under the template. -/
def builtChildren (dn : String) (vs : List Vlan) : Remote :=
  vs.map (fun v => (childDn dn v.name, MO.etherIf v.native))

/-- Body of the `try` block (lines 232-282): computes the trace of
connection calls, the `changed` flag and the resulting remote state, or
the trace up to a raising call together with the exception string. -/
def reconcileBody (p : RInput) (r : Remote) :
    Except (List Event × String) (List Event × Bool × Remote) :=
  let dn := dnOf p
  let mo := queryDn r dn
  let moExists := mo.isSome
  if p.state = "absent" then
    if moExists then
      if p.check_mode then .ok ([Event.queryDn dn], true, r)
      else
        match deleteVlans r dn p.vlans_list with
        | .ok (tr, ds) =>
            .ok (Event.queryDn dn :: tr ++ [Event.commit], true, applyRemovals r ds)
        | .error (tr, m) => .error (Event.queryDn dn :: tr, m)
    else .ok ([Event.queryDn dn], false, r)
  else
    let scanned := scanVlans r dn p.state p.vlans_list false
    if scanned.2 then .ok (Event.queryDn dn :: scanned.1, false, r)
    else
      if p.check_mode then .ok (Event.queryDn dn :: scanned.1, true, r)
      else
        let parentRef : Option String := if moExists then some dn else none
        let trC := if p.vlans_list.isEmpty then [] else constructVlans parentRef p.vlans_list
        match parentRef with
        | none =>
            .error (Event.queryDn dn :: scanned.1 ++ trC ++ [Event.addMo none], addMoNullMsg)
        | some pdn =>
            .ok (Event.queryDn dn :: scanned.1 ++ trC ++ [Event.addMo (some pdn), Event.commit],
              true, replaceChildren r pdn (builtChildren dn p.vlans_list))

/-- Result reported by the module: the `changed` flag, whether
`fail_json` was taken, the failure message if any, the trace of
connection calls, and the remote state after the run. -/
structure ROutcome where
  changed : Bool
  err : Bool
  msg : Option String
  trace : List Event
  remote : Remote
deriving DecidableEq, Repr

/-- The reconcile operation (lines 231-291): runs the `try` body; an
exception is caught once at top level, sets `msg` to
`"setup error: %s " % str(e)` and routes the result through `fail_json`;
otherwise `exit_json` reports the computed `changed`. -/
def reconcile (p : RInput) (r : Remote) : ROutcome :=
  match reconcileBody p r with
  | .ok (tr, ch, r1) =>
      { changed := ch, err := false, msg := none, trace := tr, remote := r1 }
  | .error (tr, m) =>
      { changed := false, err := true, msg := some ("setup error: " ++ m ++ " "),
        trace := tr, remote := r }

/-- Connection-layer mutating call: delete, add or commit. -/
def isMutatingCall : Event → Bool
  | Event.removeMo _ => true
  | Event.addMo _ => true
  | Event.commit => true
  | _ => false

/-- Query event recogniser, used to talk about the scan's lookups. -/
def isQueryEvent : Event → Bool
  | Event.queryDn _ => true
  | _ => false

/-- Delete event recogniser, used to count `remove_mo` calls. -/
def isRemoveEvent : Event → Bool
  | Event.removeMo _ => true
  | _ => false

/-- Events issued by a run of the deletion loop over the given VLANs when
every child lookup succeeds: a query followed by a remove, per VLAN. -/
def delTrace (dn : String) : List Vlan → List Event
  | [] => []
  | u :: us =>
    Event.queryDn (childDn dn u.name) ::
      Event.removeMo (some (childDn dn u.name)) :: delTrace dn us

theorem queryDn_append_left {l₁ : Remote} (l₂ : Remote) {k : String} {v : MO}
    (h : queryDn l₁ k = some v) : queryDn (l₁ ++ l₂) k = some v := by
  induction l₁ with
  | nil => simp [queryDn] at h
  | cons kv rest ih =>
    by_cases hk : kv.1 = k
    · simpa [queryDn, hk] using h
    · simp [queryDn, hk] at h ⊢
      exact ih h

theorem queryDn_append_right {l₁ : Remote} (l₂ : Remote) {k : String}
    (h : queryDn l₁ k = none) : queryDn (l₁ ++ l₂) k = queryDn l₂ k := by
  induction l₁ with
  | nil => simp
  | cons kv rest ih =>
    by_cases hk : kv.1 = k
    · simp [queryDn, hk] at h
    · simp [queryDn, hk] at h ⊢
      exact ih h

theorem queryDn_eq_none {l : Remote} {k : String}
    (h : ∀ kv ∈ l, kv.1 ≠ k) : queryDn l k = none := by
  induction l with
  | nil => rfl
  | cons kv rest ih =>
    have h1 : kv.1 ≠ k := h kv (by simp)
    simp [queryDn, h1]
    exact ih (fun x hx => h x (by simp [hx]))

theorem queryDn_filter {l : Remote} {k : String} {v : MO}
    (P : String × MO → Bool)
    (h : queryDn l k = some v) (hp : P (k, v) = true) :
    queryDn (l.filter P) k = some v := by
  induction l with
  | nil => simp [queryDn] at h
  | cons kv rest ih =>
    by_cases hk : kv.1 = k
    · have hv : kv.2 = v := by simpa [queryDn, hk] using h
      have : kv = (k, v) := by
        cases kv; simp_all
      subst this
      simp [List.filter, hp, queryDn]
    · simp [queryDn, hk] at h
      by_cases hP : P kv = true
      · simp [List.filter, hP, queryDn, hk]
        exact ih h
      · simp [List.filter, hP]
        exact ih h

theorem isPrefixOf_append_self (l₁ l₂ : List Char) :
    List.isPrefixOf l₁ (l₁ ++ l₂) = true := by
  induction l₁ with
  | nil => simp [List.isPrefixOf]
  | cons h t ih => simp [List.isPrefixOf, ih]

theorem isPrefixOf_eq_false_of_lt {l₁ l₂ : List Char}
    (h : l₂.length < l₁.length) : List.isPrefixOf l₁ l₂ = false := by
  induction l₁ generalizing l₂ with
  | nil => simp at h
  | cons a t ih =>
    cases l₂ with
    | nil => rfl
    | cons b t' =>
      simp only [List.isPrefixOf]
      have : t'.length < t.length := by simpa using Nat.lt_of_succ_lt_succ h
      simp [ih this]

theorem strHasDnUnder_childDn (dn n : String) :
    strHasDnUnder dn (childDn dn n) = true := by
  have : (childDn dn n).data = (dn ++ "/if-").data ++ n.data := by
    simp [childDn, String.data_append, String.append_assoc]
  simp [strHasDnUnder, this, isPrefixOf_append_self]

theorem strHasDnUnder_self (dn : String) : strHasDnUnder dn dn = false := by
  apply isPrefixOf_eq_false_of_lt
  simp [String.data_append]

theorem queryDn_builtChildren_isSome {vs : List Vlan} {u : Vlan}
    (dn : String) (hu : u ∈ vs) :
    (queryDn (builtChildren dn vs) (childDn dn u.name)).isSome = true := by
  induction vs with
  | nil => simp at hu
  | cons w ws ih =>
    by_cases hk : childDn dn w.name = childDn dn u.name
    · simp [builtChildren, queryDn, hk]
    · have hu' : u ∈ ws := by
        rcases List.mem_cons.mp hu with h | h
        · exact absurd (by rw [h]) hk
        · exact h
      simp only [builtChildren, List.map_cons, queryDn, hk, if_false]
      exact ih hu'

theorem queryDn_replaceChildren_child {r : Remote} {dn k : String}
    (cs : Remote) (hk : strHasDnUnder dn k = true) :
    queryDn (replaceChildren r dn cs) k = queryDn cs k := by
  apply queryDn_append_right
  apply queryDn_eq_none
  intro kv hkv hke
  have := List.of_mem_filter hkv
  rw [hke] at this
  simp [hk] at this

theorem queryDn_replaceChildren_templ {r : Remote} {dn : String} {v : MO}
    (cs : Remote) (h : queryDn r dn = some v) :
    queryDn (replaceChildren r dn cs) dn = some v := by
  apply queryDn_append_left
  exact queryDn_filter _ h (by simp [strHasDnUnder_self])

theorem scanVlans_events_query (r : Remote) (dn state : String)
    (vs : List Vlan) (pm : Bool) :
    ∀ e ∈ (scanVlans r dn state vs pm).1, isQueryEvent e = true := by
  induction vs generalizing pm with
  | nil => intro e he; simp [scanVlans] at he
  | cons v vs ih =>
    intro e he
    simp only [scanVlans] at he
    by_cases hst : state = "absent"
    · subst hst
      rcases hq : queryDn r (childDn dn v.name) with _ | mo1 <;>
          rw [hq] at he <;> simp at he
      · rcases he with he | he
        · simp [he, isQueryEvent]
        · exact ih pm e he
      · simp [he, isQueryEvent]
    · rcases hq : queryDn r (childDn dn v.name) with _ | mo1 <;>
          rw [hq] at he <;> simp [hst] at he
      · simp [he, isQueryEvent]
      · rcases he with he | he
        · simp [he, isQueryEvent]
        · exact ih _ e he

theorem scanVlans_pm_true (r : Remote) (dn state : String)
    (hst : state ≠ "absent") {vs : List Vlan}
    (h : ∀ v ∈ vs, (queryDn r (childDn dn v.name)).isSome = true) :
    (scanVlans r dn state vs true).2 = true := by
  induction vs with
  | nil => rfl
  | cons v vs ih =>
    have hv := h v (by simp)
    rcases hq : queryDn r (childDn dn v.name) with _ | mo1
    · rw [hq] at hv; simp at hv
    · have htail := ih (fun u hu => h u (by simp [hu]))
      simp only [scanVlans, hq, hst, if_false]
      by_cases hm : checkPropMatch mo1 v.native = true <;> simp [hm, htail]

theorem scanVlans_all_match (r : Remote) (dn state : String)
    (hst : state ≠ "absent") {vs : List Vlan} (hnz : vs ≠ [])
    (h : ∀ v ∈ vs, queryDn r (childDn dn v.name) = some (MO.etherIf v.native)) :
    (scanVlans r dn state vs false).2 = true := by
  cases vs with
  | nil => exact absurd rfl hnz
  | cons v vs =>
    have hv := h v (by simp)
    have hall : ∀ u ∈ vs, (queryDn r (childDn dn u.name)).isSome = true := by
      intro u hu; rw [h u (by simp [hu])]; rfl
    have hmatch : checkPropMatch (MO.etherIf v.native) v.native = true := by
      simp [checkPropMatch]
    simp only [scanVlans, hv, hst, if_false, hmatch, if_true]
    exact scanVlans_pm_true r dn state hst hall

theorem scanVlans_short (r : Remote) (dn state : String)
    (hst : state ≠ "absent") (pre : List Vlan) (v : Vlan) (post : List Vlan)
    (pm : Bool)
    (hpre : ∀ u ∈ pre, (queryDn r (childDn dn u.name)).isSome = true)
    (hv : queryDn r (childDn dn v.name) = none) :
    scanVlans r dn state (pre ++ v :: post) pm =
      ((pre ++ [v]).map (fun u => Event.queryDn (childDn dn u.name)), false) := by
  induction pre generalizing pm with
  | nil => simp [scanVlans, hv, hst]
  | cons u us ih =>
    have hu := hpre u (by simp)
    rcases hq : queryDn r (childDn dn u.name) with _ | mo1
    · rw [hq] at hu; simp at hu
    · have htail := fun b => ih b (fun w hw => hpre w (by simp [hw]))
      simp [scanVlans, hq, hst, htail]

theorem deleteVlans_ok (r : Remote) (dn : String) {vs : List Vlan}
    (h : ∀ u ∈ vs, (queryDn r (childDn dn u.name)).isSome = true) :
    deleteVlans r dn vs =
      .ok (delTrace dn vs, vs.map (fun u => childDn dn u.name)) := by
  induction vs with
  | nil => rfl
  | cons u us ih =>
    have hu := h u (by simp)
    rcases hq : queryDn r (childDn dn u.name) with _ | mo1
    · rw [hq] at hu; simp at hu
    · have htail := ih (fun w hw => h w (by simp [hw]))
      simp [deleteVlans, hq, htail, delTrace]

theorem deleteVlans_error (r : Remote) (dn : String)
    (pre : List Vlan) (v : Vlan) (post : List Vlan)
    (hpre : ∀ u ∈ pre, (queryDn r (childDn dn u.name)).isSome = true)
    (hv : queryDn r (childDn dn v.name) = none) :
    deleteVlans r dn (pre ++ v :: post) =
      .error (delTrace dn pre ++
        [Event.queryDn (childDn dn v.name), Event.removeMo none],
        removeMoNullMsg) := by
  induction pre with
  | nil => simp [deleteVlans, hv, delTrace]
  | cons u us ih =>
    have hu := hpre u (by simp)
    rcases hq : queryDn r (childDn dn u.name) with _ | mo1
    · rw [hq] at hu; simp at hu
    · have htail := ih (fun w hw => hpre w (by simp [hw]))
      simp [deleteVlans, hq, htail, delTrace]

theorem delTrace_filter_remove (dn : String) (vs : List Vlan) :
    (delTrace dn vs).filter isRemoveEvent =
      vs.map (fun v => Event.removeMo (some (childDn dn v.name))) := by
  induction vs with
  | nil => rfl
  | cons v vs ih => simp [delTrace, List.filter, isRemoveEvent, ih]

theorem delTrace_count_commit (dn : String) (vs : List Vlan) :
    (delTrace dn vs).count Event.commit = 0 := by
  induction vs with
  | nil => rfl
  | cons v vs ih => simp [delTrace, List.count_cons, ih]

theorem isMutatingCall_eq_false_of_query {e : Event}
    (h : isQueryEvent e = true) : isMutatingCall e = false := by
  cases e <;> simp [isQueryEvent, isMutatingCall] at h ⊢

theorem constructVlans_filter_query (par : Option String) (vs : List Vlan) :
    (constructVlans par vs).filter isQueryEvent = [] := by
  induction vs with
  | nil => rfl
  | cons v vs ih => simp [constructVlans, List.filter, isQueryEvent, ih]

theorem constructVlans_ite (par : Option String) (vs : List Vlan) :
    (if vs.isEmpty then [] else constructVlans par vs) = constructVlans par vs := by
  cases vs <;> rfl

theorem reconcile_of_body_ok {p : RInput} {r : Remote} {tr : List Event}
    {ch : Bool} {r1 : Remote}
    (h : reconcileBody p r = .ok (tr, ch, r1)) :
    reconcile p r =
      { changed := ch, err := false, msg := none, trace := tr, remote := r1 } := by
  simp [reconcile, h]

theorem reconcile_of_body_error {p : RInput} {r : Remote} {tr : List Event}
    {m : String}
    (h : reconcileBody p r = .error (tr, m)) :
    reconcile p r =
      { changed := false, err := true, msg := some ("setup error: " ++ m ++ " "),
        trace := tr, remote := r } := by
  simp [reconcile, h]

theorem reconcileBody_absent_missing (p : RInput) (r : Remote)
    (hst : p.state = "absent") (hq : queryDn r (dnOf p) = none) :
    reconcileBody p r = .ok ([Event.queryDn (dnOf p)], false, r) := by
  simp [reconcileBody, hst, hq]

theorem reconcileBody_absent_check (p : RInput) (r : Remote) {m : MO}
    (hst : p.state = "absent") (hcm : p.check_mode = true)
    (hq : queryDn r (dnOf p) = some m) :
    reconcileBody p r = .ok ([Event.queryDn (dnOf p)], true, r) := by
  simp [reconcileBody, hst, hcm, hq]

theorem reconcileBody_absent_run (p : RInput) (r : Remote) {m : MO}
    (hst : p.state = "absent") (hcm : p.check_mode = false)
    (hq : queryDn r (dnOf p) = some m)
    (h : ∀ v ∈ p.vlans_list,
      (queryDn r (childDn (dnOf p) v.name)).isSome = true) :
    reconcileBody p r = .ok
      (Event.queryDn (dnOf p) :: delTrace (dnOf p) p.vlans_list ++ [Event.commit],
        true,
        applyRemovals r (p.vlans_list.map (fun u => childDn (dnOf p) u.name))) := by
  simp [reconcileBody, hst, hcm, hq, deleteVlans_ok r (dnOf p) h]

theorem reconcileBody_absent_run_error (p : RInput) (r : Remote) {m : MO}
    {tr : List Event} {em : String}
    (hst : p.state = "absent") (hcm : p.check_mode = false)
    (hq : queryDn r (dnOf p) = some m)
    (hdel : deleteVlans r (dnOf p) p.vlans_list = .error (tr, em)) :
    reconcileBody p r = .error (Event.queryDn (dnOf p) :: tr, em) := by
  simp [reconcileBody, hst, hcm, hq, hdel]

theorem reconcileBody_absent_run_ok (p : RInput) (r : Remote) {m : MO}
    {tr : List Event} {ds : List String}
    (hst : p.state = "absent") (hcm : p.check_mode = false)
    (hq : queryDn r (dnOf p) = some m)
    (hdel : deleteVlans r (dnOf p) p.vlans_list = .ok (tr, ds)) :
    reconcileBody p r =
      .ok (Event.queryDn (dnOf p) :: tr ++ [Event.commit], true,
        applyRemovals r ds) := by
  simp [reconcileBody, hst, hcm, hq, hdel]

theorem reconcileBody_present_pm_true (p : RInput) (r : Remote)
    (hst : p.state ≠ "absent")
    (hpm : (scanVlans r (dnOf p) p.state p.vlans_list false).2 = true) :
    reconcileBody p r = .ok
      (Event.queryDn (dnOf p) ::
        (scanVlans r (dnOf p) p.state p.vlans_list false).1, false, r) := by
  simp [reconcileBody, hst, hpm]

theorem reconcileBody_present_rebuild (p : RInput) (r : Remote) {m : MO}
    (hst : p.state ≠ "absent") (hcm : p.check_mode = false)
    (hq : queryDn r (dnOf p) = some m)
    (hpm : (scanVlans r (dnOf p) p.state p.vlans_list false).2 = false) :
    reconcileBody p r = .ok
      (Event.queryDn (dnOf p) ::
        (scanVlans r (dnOf p) p.state p.vlans_list false).1 ++
        constructVlans (some (dnOf p)) p.vlans_list ++
        [Event.addMo (some (dnOf p)), Event.commit],
        true,
        replaceChildren r (dnOf p) (builtChildren (dnOf p) p.vlans_list)) := by
  simp [reconcileBody, hst, hcm, hq, hpm, constructVlans_ite]
  intro h2
  rw [h2]
  rfl

theorem reconcileBody_present_check (p : RInput) (r : Remote)
    (hst : p.state ≠ "absent") (hcm : p.check_mode = true)
    (hpm : (scanVlans r (dnOf p) p.state p.vlans_list false).2 = false) :
    reconcileBody p r = .ok
      (Event.queryDn (dnOf p) ::
        (scanVlans r (dnOf p) p.state p.vlans_list false).1, true, r) := by
  simp [reconcileBody, hst, hcm, hpm]

theorem reconcileBody_present_no_parent (p : RInput) (r : Remote)
    (hst : p.state ≠ "absent") (hcm : p.check_mode = false)
    (hq : queryDn r (dnOf p) = none)
    (hpm : (scanVlans r (dnOf p) p.state p.vlans_list false).2 = false) :
    reconcileBody p r = .error
      (Event.queryDn (dnOf p) ::
        (scanVlans r (dnOf p) p.state p.vlans_list false).1 ++
        constructVlans none p.vlans_list ++ [Event.addMo none],
        addMoNullMsg) := by
  simp [reconcileBody, hst, hcm, hq, hpm, constructVlans_ite]
  intro h2
  rw [h2]
  rfl


/-- C1: the spec requires that with `state=present` any declared VLAN that is
missing remotely or whose remote `default_net` differs from its declared
`native` flag triggers a full rebuild with `changed=true`.  The code instead
accumulates a single match flag that any one matching VLAN sets: with `v1`
matching and `v2` existing but mismatched (`default_net="yes"` versus declared
`"no"`), the run reports `changed=false` and issues no construction, add or
commit — the rebuild is skipped. -/
theorem present_match_accumulator_skips_rebuild :
    reconcile
      ⟨"org-root", "vNIC-A", [⟨"v1", "no"⟩, ⟨"v2", "no"⟩], "present", false⟩
      [("org-root/lan-conn-templ-vNIC-A", MO.templ),
        ("org-root/lan-conn-templ-vNIC-A/if-v1", MO.etherIf "no"),
        ("org-root/lan-conn-templ-vNIC-A/if-v2", MO.etherIf "yes")] =
    { changed := false, err := false, msg := none,
      trace := [Event.queryDn "org-root/lan-conn-templ-vNIC-A",
        Event.queryDn "org-root/lan-conn-templ-vNIC-A/if-v1",
        Event.queryDn "org-root/lan-conn-templ-vNIC-A/if-v2"],
      remote := [("org-root/lan-conn-templ-vNIC-A", MO.templ),
        ("org-root/lan-conn-templ-vNIC-A/if-v1", MO.etherIf "no"),
        ("org-root/lan-conn-templ-vNIC-A/if-v2", MO.etherIf "yes")] } := by
  rfl

/-- C4: with `state=absent` and no object at the computed template dn, the
reconcile reports `changed=false`, succeeds, issues only the template query
(no delete, add or commit), and leaves the remote state untouched. -/
theorem absent_missing_template_unchanged (p : RInput) (r : Remote)
    (hst : p.state = "absent") (hq : queryDn r (dnOf p) = none) :
    reconcile p r =
      { changed := false, err := false, msg := none,
        trace := [Event.queryDn (dnOf p)], remote := r } :=
  reconcile_of_body_ok (reconcileBody_absent_missing p r hst hq)

/-- Witness for C4 at a concrete input: an empty appliance tree. -/
theorem absent_missing_template_unchanged_witness :
    reconcile ⟨"org-root", "t", [⟨"v1", "no"⟩], "absent", false⟩ [] =
      { changed := false, err := false, msg := none,
        trace := [Event.queryDn "org-root/lan-conn-templ-t"], remote := [] } :=
  absent_missing_template_unchanged _ _ rfl rfl

/-- C6: with `state=present`, at least one declared VLAN, and every declared
VLAN existing remotely with `default_net` equal to its declared `native` flag,
the reconcile reports `changed=false`, succeeds, issues no mutating call and
leaves the remote state untouched. -/
theorem present_all_match_unchanged (p : RInput) (r : Remote)
    (hst : p.state = "present") (hnz : p.vlans_list ≠ [])
    (h : ∀ v ∈ p.vlans_list,
      queryDn r (childDn (dnOf p) v.name) = some (MO.etherIf v.native)) :
    (reconcile p r).changed = false ∧ (reconcile p r).err = false ∧
      (reconcile p r).remote = r ∧
      ∀ e ∈ (reconcile p r).trace, isMutatingCall e = false := by
  have hne : p.state ≠ "absent" := by rw [hst]; decide
  have hpm := scanVlans_all_match r (dnOf p) p.state hne hnz h
  rw [reconcile_of_body_ok (reconcileBody_present_pm_true p r hne hpm)]
  refine ⟨rfl, rfl, rfl, ?_⟩
  intro e he
  rcases List.mem_cons.mp he with he | he
  · rw [he]; rfl
  · exact isMutatingCall_eq_false_of_query (scanVlans_events_query _ _ _ _ _ e he)

/-- Witness for C6 at a concrete input: one declared VLAN, existing remotely
with a matching native flag. -/
theorem present_all_match_unchanged_witness :
    (reconcile ⟨"org-root", "t", [⟨"v1", "yes"⟩], "present", false⟩
      [("org-root/lan-conn-templ-t", MO.templ),
        ("org-root/lan-conn-templ-t/if-v1", MO.etherIf "yes")]).changed = false ∧
    (reconcile ⟨"org-root", "t", [⟨"v1", "yes"⟩], "present", false⟩
      [("org-root/lan-conn-templ-t", MO.templ),
        ("org-root/lan-conn-templ-t/if-v1", MO.etherIf "yes")]).err = false :=
  ⟨(present_all_match_unchanged _ _ rfl (by decide) (by decide)).1,
    (present_all_match_unchanged _ _ rfl (by decide) (by decide)).2.1⟩

/-- C8 counterexample: at a concrete failing input (deletion of a declared
VLAN whose child is absent) the failure is reported, but the message is
`"setup error: "` followed by the stringified exception and a trailing
space — it is not the exact concatenation the claim states. -/
theorem failure_msg_has_trailing_space :
    (reconcile ⟨"org-root", "t", [⟨"v1", "no"⟩], "absent", false⟩
      [("org-root/lan-conn-templ-t", MO.templ)]).err = true ∧
    (reconcile ⟨"org-root", "t", [⟨"v1", "no"⟩], "absent", false⟩
      [("org-root/lan-conn-templ-t", MO.templ)]).msg =
      some ("setup error: " ++ removeMoNullMsg ++ " ") ∧
    (reconcile ⟨"org-root", "t", [⟨"v1", "no"⟩], "absent", false⟩
      [("org-root/lan-conn-templ-t", MO.templ)]).msg ≠
      some ("setup error: " ++ removeMoNullMsg) := by
  refine ⟨rfl, rfl, ?_⟩
  decide

/-- C8 amended: any exception raised by a connection-layer call is caught
exactly once at the top level; the run reports failure with message
`"setup error: " + str(e) + " "` (the code's format string carries a
trailing space), `changed=false`, the trace is exactly the calls issued up
to the raising one (no retry), and the committed remote state is unchanged
(no rollback is needed or attempted). -/
theorem exception_caught_once_at_top (p : RInput) (r : Remote)
    (tr : List Event) (m : String)
    (h : reconcileBody p r = .error (tr, m)) :
    reconcile p r =
      { changed := false, err := true,
        msg := some ("setup error: " ++ m ++ " "), trace := tr, remote := r } :=
  reconcile_of_body_error h

/-- Witness for C8 at a concrete input: `state=absent` with the template
present but the declared VLAN child absent, so `remove_mo(None)` raises. -/
theorem exception_caught_once_at_top_witness :
    reconcile ⟨"org-root", "t", [⟨"v1", "no"⟩], "absent", false⟩
      [("org-root/lan-conn-templ-t", MO.templ)] =
    { changed := false, err := true,
      msg := some ("setup error: " ++ removeMoNullMsg ++ " "),
      trace := [Event.queryDn "org-root/lan-conn-templ-t",
        Event.queryDn "org-root/lan-conn-templ-t/if-v1", Event.removeMo none],
      remote := [("org-root/lan-conn-templ-t", MO.templ)] } :=
  exception_caught_once_at_top _ _ _ _ rfl



/-- C5 counterexample: `state=absent` against an existing template whose
declared VLAN `v2` has no remote child does not issue one delete per
declared VLAN followed by a commit: the `remove_mo` on the null lookup for
`v2` raises, so no commit is issued, the second delete call carries `None`,
and the run reports `changed=false` with an error instead of `changed=true`. -/
theorem absent_missing_child_aborts_deletion :
    (reconcile ⟨"org-root", "t", [⟨"v1", "no"⟩, ⟨"v2", "no"⟩], "absent", false⟩
      [("org-root/lan-conn-templ-t", MO.templ),
        ("org-root/lan-conn-templ-t/if-v1", MO.etherIf "no")]).changed = false ∧
    (reconcile ⟨"org-root", "t", [⟨"v1", "no"⟩, ⟨"v2", "no"⟩], "absent", false⟩
      [("org-root/lan-conn-templ-t", MO.templ),
        ("org-root/lan-conn-templ-t/if-v1", MO.etherIf "no")]).err = true ∧
    (reconcile ⟨"org-root", "t", [⟨"v1", "no"⟩, ⟨"v2", "no"⟩], "absent", false⟩
      [("org-root/lan-conn-templ-t", MO.templ),
        ("org-root/lan-conn-templ-t/if-v1", MO.etherIf "no")]).trace.count
      Event.commit = 0 ∧
    (reconcile ⟨"org-root", "t", [⟨"v1", "no"⟩, ⟨"v2", "no"⟩], "absent", false⟩
      [("org-root/lan-conn-templ-t", MO.templ),
        ("org-root/lan-conn-templ-t/if-v1", MO.etherIf "no")]).trace.filter
      isRemoveEvent =
      [Event.removeMo (some "org-root/lan-conn-templ-t/if-v1"),
        Event.removeMo none] :=
  ⟨rfl, rfl, rfl, rfl⟩

/-- C5 amended: with `state=absent`, not in check mode, the template existing
and every declared VLAN child existing remotely, the run succeeds with
`changed=true`, issues exactly one `remove_mo` per declared VLAN on the
object fetched at `dn + "/if-" + vlan.name` (in declaration order), and one
commit as the final call.  When some declared child is missing the
collaborator raises instead (see the counterexample and C9). -/
theorem absent_existing_deletes_each_child_once (p : RInput) (r : Remote)
    {m : MO}
    (hst : p.state = "absent") (hcm : p.check_mode = false)
    (hq : queryDn r (dnOf p) = some m)
    (h : ∀ v ∈ p.vlans_list,
      (queryDn r (childDn (dnOf p) v.name)).isSome = true) :
    (reconcile p r).err = false ∧ (reconcile p r).changed = true ∧
    (reconcile p r).trace.filter isRemoveEvent =
      p.vlans_list.map (fun v => Event.removeMo (some (childDn (dnOf p) v.name))) ∧
    (reconcile p r).trace.count Event.commit = 1 ∧
    (reconcile p r).trace.getLast? = some Event.commit := by
  rw [reconcile_of_body_ok (reconcileBody_absent_run p r hst hcm hq h)]
  refine ⟨rfl, rfl, ?_, ?_, ?_⟩
  · show (Event.queryDn (dnOf p) :: delTrace (dnOf p) p.vlans_list ++
      [Event.commit]).filter isRemoveEvent = _
    simp [List.filter_cons, List.filter_append, delTrace_filter_remove,
      isRemoveEvent]
  · show (Event.queryDn (dnOf p) :: delTrace (dnOf p) p.vlans_list ++
      [Event.commit]).count Event.commit = 1
    simp [List.count_cons, List.count_append, delTrace_count_commit]
  · show ((Event.queryDn (dnOf p) :: delTrace (dnOf p) p.vlans_list) ++
      [Event.commit]).getLast? = some Event.commit
    exact List.getLast?_concat _

/-- Witness for the amended C5 at a concrete input: two declared VLANs, both
children present remotely. -/
theorem absent_existing_deletes_witness :
    (reconcile ⟨"org-root", "t", [⟨"v1", "no"⟩, ⟨"v2", "no"⟩], "absent", false⟩
      [("org-root/lan-conn-templ-t", MO.templ),
        ("org-root/lan-conn-templ-t/if-v1", MO.etherIf "no"),
        ("org-root/lan-conn-templ-t/if-v2", MO.etherIf "yes")]).err = false ∧
    (reconcile ⟨"org-root", "t", [⟨"v1", "no"⟩, ⟨"v2", "no"⟩], "absent", false⟩
      [("org-root/lan-conn-templ-t", MO.templ),
        ("org-root/lan-conn-templ-t/if-v1", MO.etherIf "no"),
        ("org-root/lan-conn-templ-t/if-v2", MO.etherIf "yes")]).changed = true ∧
    (reconcile ⟨"org-root", "t", [⟨"v1", "no"⟩, ⟨"v2", "no"⟩], "absent", false⟩
      [("org-root/lan-conn-templ-t", MO.templ),
        ("org-root/lan-conn-templ-t/if-v1", MO.etherIf "no"),
        ("org-root/lan-conn-templ-t/if-v2", MO.etherIf "yes")]).trace.count
      Event.commit = 1 :=
  ⟨(@absent_existing_deletes_each_child_once
      ⟨"org-root", "t", [⟨"v1", "no"⟩, ⟨"v2", "no"⟩], "absent", false⟩
      [("org-root/lan-conn-templ-t", MO.templ),
        ("org-root/lan-conn-templ-t/if-v1", MO.etherIf "no"),
        ("org-root/lan-conn-templ-t/if-v2", MO.etherIf "yes")]
      MO.templ rfl rfl rfl (by decide)).1,
    (@absent_existing_deletes_each_child_once
      ⟨"org-root", "t", [⟨"v1", "no"⟩, ⟨"v2", "no"⟩], "absent", false⟩
      [("org-root/lan-conn-templ-t", MO.templ),
        ("org-root/lan-conn-templ-t/if-v1", MO.etherIf "no"),
        ("org-root/lan-conn-templ-t/if-v2", MO.etherIf "yes")]
      MO.templ rfl rfl rfl (by decide)).2.1,
    (@absent_existing_deletes_each_child_once
      ⟨"org-root", "t", [⟨"v1", "no"⟩, ⟨"v2", "no"⟩], "absent", false⟩
      [("org-root/lan-conn-templ-t", MO.templ),
        ("org-root/lan-conn-templ-t/if-v1", MO.etherIf "no"),
        ("org-root/lan-conn-templ-t/if-v2", MO.etherIf "yes")]
      MO.templ rfl rfl rfl (by decide)).2.2.2.1⟩

/-- C9: with `state=absent`, not in check mode, the template existing, and a
declared VLAN `v` whose child is missing remotely (all VLANs before it having
children), the deletion path applies no special-case handling: after one
query-and-delete per preceding VLAN, the child dn of `v` is queried and the
null result is still handed to `remove_mo`; what the collaborator raises
propagates to the top-level handler and is reported as the setup-error
failure, with no commit issued. -/
theorem absent_null_child_delete_propagates (p : RInput) (r : Remote)
    (pre : List Vlan) (v : Vlan) (post : List Vlan) {m : MO}
    (hst : p.state = "absent") (hcm : p.check_mode = false)
    (hq : queryDn r (dnOf p) = some m)
    (hl : p.vlans_list = pre ++ v :: post)
    (hpre : ∀ u ∈ pre, (queryDn r (childDn (dnOf p) u.name)).isSome = true)
    (hv : queryDn r (childDn (dnOf p) v.name) = none) :
    reconcile p r =
      { changed := false, err := true,
        msg := some ("setup error: " ++ removeMoNullMsg ++ " "),
        trace := Event.queryDn (dnOf p) :: delTrace (dnOf p) pre ++
          [Event.queryDn (childDn (dnOf p) v.name), Event.removeMo none],
        remote := r } := by
  have hdel := deleteVlans_error r (dnOf p) pre v post hpre hv
  have hbody : reconcileBody p r = .error
      (Event.queryDn (dnOf p) :: delTrace (dnOf p) pre ++
        [Event.queryDn (childDn (dnOf p) v.name), Event.removeMo none],
        removeMoNullMsg) := by
    simp [reconcileBody, hst, hcm, hq, hl, hdel]
  exact reconcile_of_body_error hbody

/-- Witness for C9 at a concrete input: `v1` has a child, `v2` does not. -/
theorem absent_null_child_delete_witness :
    reconcile ⟨"org-root", "t", [⟨"v1", "no"⟩, ⟨"v2", "no"⟩], "absent", false⟩
      [("org-root/lan-conn-templ-t", MO.templ),
        ("org-root/lan-conn-templ-t/if-v1", MO.etherIf "no")] =
      { changed := false, err := true,
        msg := some ("setup error: " ++ removeMoNullMsg ++ " "),
        trace := [Event.queryDn "org-root/lan-conn-templ-t",
          Event.queryDn "org-root/lan-conn-templ-t/if-v1",
          Event.removeMo (some "org-root/lan-conn-templ-t/if-v1"),
          Event.queryDn "org-root/lan-conn-templ-t/if-v2",
          Event.removeMo none],
        remote := [("org-root/lan-conn-templ-t", MO.templ),
          ("org-root/lan-conn-templ-t/if-v1", MO.etherIf "no")] } :=
  @absent_null_child_delete_propagates
    ⟨"org-root", "t", [⟨"v1", "no"⟩, ⟨"v2", "no"⟩], "absent", false⟩
    [("org-root/lan-conn-templ-t", MO.templ),
      ("org-root/lan-conn-templ-t/if-v1", MO.etherIf "no")]
    [⟨"v1", "no"⟩] ⟨"v2", "no"⟩ [] MO.templ
    rfl rfl rfl rfl (by decide) rfl



/-- C7: in the `state=present` scan, the comparison loop stops at the first
declared VLAN whose child object is absent remotely: the query events of the
whole run are exactly the template query followed by one child query per VLAN
up to and including the first missing one (none for later VLANs), the
accumulated match flag is false, and the rebuild branch is taken (predicted
`changed=true` in check mode). -/
theorem present_scan_short_circuits (p : RInput) (r : Remote)
    (pre : List Vlan) (v : Vlan) (post : List Vlan)
    (hst : p.state = "present")
    (hl : p.vlans_list = pre ++ v :: post)
    (hpre : ∀ u ∈ pre, (queryDn r (childDn (dnOf p) u.name)).isSome = true)
    (hv : queryDn r (childDn (dnOf p) v.name) = none) :
    (reconcile p r).trace.filter isQueryEvent =
      Event.queryDn (dnOf p) ::
        (pre ++ [v]).map (fun u => Event.queryDn (childDn (dnOf p) u.name)) ∧
    (scanVlans r (dnOf p) p.state p.vlans_list false).2 = false ∧
    (reconcile { p with check_mode := true } r).changed = true := by
  have hne : p.state ≠ "absent" := by rw [hst]; decide
  have hscan : scanVlans r (dnOf p) p.state p.vlans_list false =
      ((pre ++ [v]).map (fun u => Event.queryDn (childDn (dnOf p) u.name)),
        false) := by
    rw [hl]
    exact scanVlans_short r (dnOf p) p.state hne pre v post false hpre hv
  have hpm : (scanVlans r (dnOf p) p.state p.vlans_list false).2 = false := by
    rw [hscan]
  have hfeq : (scanVlans r (dnOf p) p.state p.vlans_list false).1.filter
      isQueryEvent =
      (pre ++ [v]).map (fun u => Event.queryDn (childDn (dnOf p) u.name)) := by
    rw [List.filter_eq_self.mpr
      (scanVlans_events_query r (dnOf p) p.state p.vlans_list false), hscan]
  refine ⟨?_, hpm, ?_⟩
  · cases hcm : p.check_mode
    · rcases hq : queryDn r (dnOf p) with _ | mo
      · rw [reconcile_of_body_error
          (reconcileBody_present_no_parent p r hne hcm hq hpm)]
        simp [List.filter_append, List.filter_cons, isQueryEvent,
          constructVlans_filter_query, hfeq]
      · rw [reconcile_of_body_ok
          (reconcileBody_present_rebuild p r hne hcm hq hpm)]
        simp [List.filter_append, List.filter_cons, isQueryEvent,
          constructVlans_filter_query, hfeq]
    · rw [reconcile_of_body_ok (reconcileBody_present_check p r hne hcm hpm)]
      simp [List.filter_cons, isQueryEvent, hfeq]
  · rw [reconcile_of_body_ok
      (reconcileBody_present_check { p with check_mode := true } r hne rfl hpm)]

/-- Witness for C7 at a concrete input: `v1` present, `v2` missing, `v3`
declared after the miss and never queried. -/
theorem present_scan_short_circuits_witness :
    (reconcile
      ⟨"org-root", "t", [⟨"v1", "yes"⟩, ⟨"v2", "no"⟩, ⟨"v3", "no"⟩],
        "present", false⟩
      [("org-root/lan-conn-templ-t", MO.templ),
        ("org-root/lan-conn-templ-t/if-v1", MO.etherIf "yes")]).trace.filter
      isQueryEvent =
      Event.queryDn
        (dnOf ⟨"org-root", "t", [⟨"v1", "yes"⟩, ⟨"v2", "no"⟩, ⟨"v3", "no"⟩],
          "present", false⟩) ::
        (([⟨"v1", "yes"⟩] ++ [⟨"v2", "no"⟩] : List Vlan)).map
          (fun u => Event.queryDn
            (childDn
              (dnOf ⟨"org-root", "t",
                [⟨"v1", "yes"⟩, ⟨"v2", "no"⟩, ⟨"v3", "no"⟩], "present", false⟩)
              u.name)) :=
  (present_scan_short_circuits
    ⟨"org-root", "t", [⟨"v1", "yes"⟩, ⟨"v2", "no"⟩, ⟨"v3", "no"⟩],
      "present", false⟩
    [("org-root/lan-conn-templ-t", MO.templ),
      ("org-root/lan-conn-templ-t/if-v1", MO.etherIf "yes")]
    [⟨"v1", "yes"⟩] ⟨"v2", "no"⟩ [⟨"v3", "no"⟩]
    rfl rfl (by decide) rfl).1

/-- C3 counterexample: `state=absent` against an existing template with a
missing declared child.  The check-mode run predicts `changed=true`, but the
non-check-mode run against the same remote state raises in `remove_mo(None)`
and reports `changed=false` — the two runs do not report the same `changed`
value. -/
theorem check_mode_changed_differs_on_error :
    (reconcile ⟨"org-root", "t", [⟨"v1", "no"⟩], "absent", true⟩
      [("org-root/lan-conn-templ-t", MO.templ)]).changed = true ∧
    (reconcile ⟨"org-root", "t", [⟨"v1", "no"⟩], "absent", true⟩
      [("org-root/lan-conn-templ-t", MO.templ)]).err = false ∧
    (reconcile ⟨"org-root", "t", [⟨"v1", "no"⟩], "absent", false⟩
      [("org-root/lan-conn-templ-t", MO.templ)]).changed = false ∧
    (reconcile ⟨"org-root", "t", [⟨"v1", "no"⟩], "absent", false⟩
      [("org-root/lan-conn-templ-t", MO.templ)]).err = true :=
  ⟨rfl, rfl, rfl, rfl⟩

/-- C3 amended: a check-mode run never issues a delete, add or commit call in
any branch and never fails; and whenever the non-check-mode run against the
same remote state completes without error, the check-mode run reports the
same `changed` value.  (When the non-check-mode run raises mid-operation it
reports `changed=false` while check mode may predict `true` — see the
counterexample.) -/
theorem check_mode_no_mutations_agrees_on_success (p : RInput) (r : Remote) :
    (∀ e ∈ (reconcile { p with check_mode := true } r).trace,
      isMutatingCall e = false) ∧
    (reconcile { p with check_mode := true } r).err = false ∧
    ((reconcile { p with check_mode := false } r).err = false →
      (reconcile { p with check_mode := true } r).changed =
        (reconcile { p with check_mode := false } r).changed) := by
  by_cases hst : p.state = "absent"
  · rcases hq : queryDn r (dnOf p) with _ | m
    · rw [reconcile_of_body_ok
          (reconcileBody_absent_missing { p with check_mode := true } r hst hq),
        reconcile_of_body_ok
          (reconcileBody_absent_missing { p with check_mode := false } r hst hq)]
      refine ⟨?_, rfl, fun _ => rfl⟩
      intro e he
      simp only [List.mem_singleton] at he
      rw [he]
      rfl
    · rw [reconcile_of_body_ok
        (reconcileBody_absent_check { p with check_mode := true } r hst rfl hq)]
      refine ⟨?_, rfl, ?_⟩
      · intro e he
        simp only [List.mem_singleton] at he
        rw [he]
        rfl
      · intro herr
        rcases hdel : deleteVlans r (dnOf p) p.vlans_list with ⟨tr, em⟩ | ⟨tr, ds⟩
        · rw [reconcile_of_body_error
            (reconcileBody_absent_run_error { p with check_mode := false } r
              hst rfl hq hdel)] at herr
          simp at herr
        · rw [reconcile_of_body_ok
            (reconcileBody_absent_run_ok { p with check_mode := false } r
              hst rfl hq hdel)]
  · cases hpm : (scanVlans r (dnOf p) p.state p.vlans_list false).2
    · rw [reconcile_of_body_ok
        (reconcileBody_present_check { p with check_mode := true } r hst rfl hpm)]
      refine ⟨?_, rfl, ?_⟩
      · intro e he
        rcases List.mem_cons.mp he with he | he
        · rw [he]; rfl
        · exact isMutatingCall_eq_false_of_query
            (scanVlans_events_query _ _ _ _ _ e he)
      · intro herr
        rcases hq : queryDn r (dnOf p) with _ | m
        · rw [reconcile_of_body_error
            (reconcileBody_present_no_parent { p with check_mode := false } r
              hst rfl hq hpm)] at herr
          simp at herr
        · rw [reconcile_of_body_ok
            (reconcileBody_present_rebuild { p with check_mode := false } r
              hst rfl hq hpm)]
    · rw [reconcile_of_body_ok
          (reconcileBody_present_pm_true { p with check_mode := true } r hst hpm),
        reconcile_of_body_ok
          (reconcileBody_present_pm_true { p with check_mode := false } r hst hpm)]
      refine ⟨?_, rfl, fun _ => rfl⟩
      intro e he
      rcases List.mem_cons.mp he with he | he
      · rw [he]; rfl
      · exact isMutatingCall_eq_false_of_query
          (scanVlans_events_query _ _ _ _ _ e he)

/-- Witness for the amended C3 at a concrete input: one declared matching
VLAN, for which the non-check run succeeds unchanged. -/
theorem check_mode_agreement_witness :
    (reconcile ⟨"org-root", "t", [⟨"v1", "yes"⟩], "present", true⟩
      [("org-root/lan-conn-templ-t", MO.templ),
        ("org-root/lan-conn-templ-t/if-v1", MO.etherIf "yes")]).err = false ∧
    (reconcile ⟨"org-root", "t", [⟨"v1", "yes"⟩], "present", true⟩
      [("org-root/lan-conn-templ-t", MO.templ),
        ("org-root/lan-conn-templ-t/if-v1", MO.etherIf "yes")]).changed =
      (reconcile ⟨"org-root", "t", [⟨"v1", "yes"⟩], "present", false⟩
        [("org-root/lan-conn-templ-t", MO.templ),
          ("org-root/lan-conn-templ-t/if-v1", MO.etherIf "yes")]).changed :=
  ⟨(check_mode_no_mutations_agrees_on_success
      ⟨"org-root", "t", [⟨"v1", "yes"⟩], "present", false⟩
      [("org-root/lan-conn-templ-t", MO.templ),
        ("org-root/lan-conn-templ-t/if-v1", MO.etherIf "yes")]).2.1,
    (check_mode_no_mutations_agrees_on_success
      ⟨"org-root", "t", [⟨"v1", "yes"⟩], "present", false⟩
      [("org-root/lan-conn-templ-t", MO.templ),
        ("org-root/lan-conn-templ-t/if-v1", MO.etherIf "yes")]).2.2 rfl⟩



theorem scanVlans_pm_of_head_match (r : Remote) (dn state : String)
    (hst : state ≠ "absent") (v0 : Vlan) (vs : List Vlan)
    (h0 : queryDn r (childDn dn v0.name) = some (MO.etherIf v0.native))
    (hrest : ∀ u ∈ vs, (queryDn r (childDn dn u.name)).isSome = true) :
    (scanVlans r dn state (v0 :: vs) false).2 = true := by
  have hm : checkPropMatch (MO.etherIf v0.native) v0.native = true := by
    simp [checkPropMatch]
  simp only [scanVlans, h0, hst, if_false, hm, if_true]
  simp [scanVlans_pm_true r dn state hst hrest]

/-- C10: with `state=present` and no object at the computed template dn (and
hence no child at the first declared VLAN's child dn), the reconcile never
creates the template: the scan short-circuits on the first declared VLAN,
check mode predicts `changed=true` leaving the tree untouched, and the
non-check-mode run constructs one child per declared VLAN with a null parent
reference, passes the null parent to `add_mo` (modelled as raising inside the
collaborator), fails, and leaves the remote tree — in particular the template
dn — untouched. -/
theorem present_missing_template_not_created (p : RInput) (r : Remote)
    (v0 : Vlan) (vs : List Vlan)
    (hst : p.state = "present") (hcm : p.check_mode = false)
    (hl : p.vlans_list = v0 :: vs)
    (hq : queryDn r (dnOf p) = none)
    (hc0 : queryDn r (childDn (dnOf p) v0.name) = none) :
    (reconcile { p with check_mode := true } r).changed = true ∧
    (reconcile { p with check_mode := true } r).remote = r ∧
    reconcile p r =
      { changed := false, err := true,
        msg := some ("setup error: " ++ addMoNullMsg ++ " "),
        trace := Event.queryDn (dnOf p) ::
          [Event.queryDn (childDn (dnOf p) v0.name)] ++
          constructVlans none p.vlans_list ++ [Event.addMo none],
        remote := r } ∧
    queryDn (reconcile p r).remote (dnOf p) = none := by
  have hne : p.state ≠ "absent" := by rw [hst]; decide
  have hscan : scanVlans r (dnOf p) p.state p.vlans_list false =
      ([Event.queryDn (childDn (dnOf p) v0.name)], false) := by
    rw [hl]
    simpa using scanVlans_short r (dnOf p) p.state hne [] v0 vs false
      (by intro u hu; simp at hu) hc0
  have hpm : (scanVlans r (dnOf p) p.state p.vlans_list false).2 = false := by
    rw [hscan]
  have hT := reconcile_of_body_ok
    (reconcileBody_present_check { p with check_mode := true } r hne rfl hpm)
  have hF := reconcile_of_body_error
    (reconcileBody_present_no_parent p r hne hcm hq hpm)
  refine ⟨by rw [hT], by rw [hT], ?_, ?_⟩
  · rw [hF, hscan]
  · rw [hF]
    exact hq

/-- Witness for C10 at a concrete input: two declared VLANs against an empty
appliance tree. -/
theorem present_missing_template_not_created_witness :
    (reconcile ⟨"org-root", "t", [⟨"v1", "yes"⟩, ⟨"v2", "no"⟩],
      "present", true⟩ []).changed = true ∧
    (reconcile ⟨"org-root", "t", [⟨"v1", "yes"⟩, ⟨"v2", "no"⟩],
      "present", false⟩ []).err = true ∧
    queryDn (reconcile ⟨"org-root", "t", [⟨"v1", "yes"⟩, ⟨"v2", "no"⟩],
      "present", false⟩ []).remote
      (dnOf ⟨"org-root", "t", [⟨"v1", "yes"⟩, ⟨"v2", "no"⟩],
        "present", false⟩) = none := by
  have h := present_missing_template_not_created
    ⟨"org-root", "t", [⟨"v1", "yes"⟩, ⟨"v2", "no"⟩], "present", false⟩ []
    ⟨"v1", "yes"⟩ [⟨"v2", "no"⟩] rfl rfl rfl rfl rfl
  exact ⟨h.1, by rw [h.2.2.1], h.2.2.2⟩

/-- C2 counterexample: `state=absent` against an existing template is not
idempotent.  The first run succeeds with `changed=true` but deletes only the
VLAN children, never the template, so the second run — against the remote
state the first one produced — re-enters the deletion branch, hands the null
child lookup to `remove_mo`, and fails instead of succeeding with
`changed=false`. -/
theorem absent_twice_second_run_fails :
    (reconcile ⟨"org-root", "t", [⟨"v1", "no"⟩], "absent", false⟩
      [("org-root/lan-conn-templ-t", MO.templ),
        ("org-root/lan-conn-templ-t/if-v1", MO.etherIf "no")]).err = false ∧
    (reconcile ⟨"org-root", "t", [⟨"v1", "no"⟩], "absent", false⟩
      [("org-root/lan-conn-templ-t", MO.templ),
        ("org-root/lan-conn-templ-t/if-v1", MO.etherIf "no")]).changed = true ∧
    (reconcile ⟨"org-root", "t", [⟨"v1", "no"⟩], "absent", false⟩
      (reconcile ⟨"org-root", "t", [⟨"v1", "no"⟩], "absent", false⟩
        [("org-root/lan-conn-templ-t", MO.templ),
          ("org-root/lan-conn-templ-t/if-v1", MO.etherIf "no")]).remote).err
      = true ∧
    (reconcile ⟨"org-root", "t", [⟨"v1", "no"⟩], "absent", false⟩
      (reconcile ⟨"org-root", "t", [⟨"v1", "no"⟩], "absent", false⟩
        [("org-root/lan-conn-templ-t", MO.templ),
          ("org-root/lan-conn-templ-t/if-v1", MO.etherIf "no")]).remote).changed
      = false :=
  ⟨rfl, rfl, rfl, rfl⟩

/-- C2 amended: outside check mode, with at least one declared VLAN, the
reconcile is idempotent for `state=present` against an existing template and
for `state=absent` against a missing template: the first run succeeds and the
second run, against the remote state the first produced, succeeds with
`changed=false`.  For `state=absent` against an existing template the second
run fails instead (see the counterexample). -/
theorem reconcile_second_run_unchanged (p : RInput) (r : Remote)
    (hcm : p.check_mode = false) (hnz : p.vlans_list ≠ [])
    (h : (p.state = "present" ∧ (queryDn r (dnOf p)).isSome = true) ∨
         (p.state = "absent" ∧ queryDn r (dnOf p) = none)) :
    (reconcile p r).err = false ∧
    (reconcile p (reconcile p r).remote).err = false ∧
    (reconcile p (reconcile p r).remote).changed = false := by
  rcases h with ⟨hst, hmo⟩ | ⟨hst, hmo⟩
  · have hne : p.state ≠ "absent" := by rw [hst]; decide
    rcases Option.isSome_iff_exists.mp hmo with ⟨m, hq⟩
    cases hpm : (scanVlans r (dnOf p) p.state p.vlans_list false).2
    · rcases hl : p.vlans_list with _ | ⟨v0, vs⟩
      · exact absurd hl hnz
      · have ho1 := reconcile_of_body_ok
          (reconcileBody_present_rebuild p r hne hcm hq hpm)
        have hrem : (reconcile p r).remote =
            replaceChildren r (dnOf p) (builtChildren (dnOf p) p.vlans_list) := by
          rw [ho1]
        have hscan2 : (scanVlans
            (replaceChildren r (dnOf p) (builtChildren (dnOf p) p.vlans_list))
            (dnOf p) p.state p.vlans_list false).2 = true := by
          rw [hl]
          apply scanVlans_pm_of_head_match _ _ _ hne
          · rw [queryDn_replaceChildren_child _ (strHasDnUnder_childDn _ _)]
            simp [builtChildren, queryDn]
          · intro u hu
            rw [queryDn_replaceChildren_child _ (strHasDnUnder_childDn _ _)]
            exact queryDn_builtChildren_isSome (dnOf p) (by simp [hu])
        have ho2 := reconcile_of_body_ok (reconcileBody_present_pm_true p
          (replaceChildren r (dnOf p) (builtChildren (dnOf p) p.vlans_list))
          hne hscan2)
        refine ⟨by rw [ho1], ?_, ?_⟩ <;> rw [hrem, ho2]
    · have ho1 := reconcile_of_body_ok
        (reconcileBody_present_pm_true p r hne hpm)
      have hrem : (reconcile p r).remote = r := by rw [ho1]
      refine ⟨by rw [ho1], ?_, ?_⟩ <;> rw [hrem, ho1]
  · have ho1 := reconcile_of_body_ok (reconcileBody_absent_missing p r hst hmo)
    have hrem : (reconcile p r).remote = r := by rw [ho1]
    refine ⟨by rw [ho1], ?_, ?_⟩ <;> rw [hrem, ho1]

/-- Witness for the amended C2 at a concrete input: `state=present` against
an existing template with a mismatched child, run twice. -/
theorem reconcile_second_run_unchanged_witness :
    (reconcile ⟨"org-root", "t", [⟨"v1", "yes"⟩], "present", false⟩
      [("org-root/lan-conn-templ-t", MO.templ),
        ("org-root/lan-conn-templ-t/if-v1", MO.etherIf "no")]).err = false ∧
    (reconcile ⟨"org-root", "t", [⟨"v1", "yes"⟩], "present", false⟩
      (reconcile ⟨"org-root", "t", [⟨"v1", "yes"⟩], "present", false⟩
        [("org-root/lan-conn-templ-t", MO.templ),
          ("org-root/lan-conn-templ-t/if-v1", MO.etherIf "no")]).remote).err
      = false ∧
    (reconcile ⟨"org-root", "t", [⟨"v1", "yes"⟩], "present", false⟩
      (reconcile ⟨"org-root", "t", [⟨"v1", "yes"⟩], "present", false⟩
        [("org-root/lan-conn-templ-t", MO.templ),
          ("org-root/lan-conn-templ-t/if-v1", MO.etherIf "no")]).remote).changed
      = false :=
  reconcile_second_run_unchanged
    ⟨"org-root", "t", [⟨"v1", "yes"⟩], "present", false⟩
    [("org-root/lan-conn-templ-t", MO.templ),
      ("org-root/lan-conn-templ-t/if-v1", MO.etherIf "no")]
    rfl (by decide) (Or.inl ⟨rfl, rfl⟩)


end UcsVlanToVnicTemplate
